import Mathlib

/-
Verification of the mongojet session/cursor coordination layer.

The definitions below are a shallow embedding of the Rust sources:
  * src/error.rs    — the error classifier (`From<MongoError> for PyErr`)
  * src/cursor.rs   — `CoreCursor` and `CoreSessionCursor`
  * src/session.rs  — `CoreSession` (delegating transactions to the engine)
  * src/runtime.rs  — the cross-runtime bridge `spawn`
  * src/result.rs   — result conversions (`CoreInsertManyResult`)
  * src/collection.rs — `insert_many` / `insert_many_with_session`
Raw BSON documents are opaque at this layer (the code moves `RawDocumentBuf`
byte buffers around without inspecting them), so documents and BSON values
are modelled as atoms (`Nat`).
-/

namespace Mongojet

/-- Raw BSON document: an opaque byte buffer at this layer. -/
abbrev Doc := Nat

/-- BSON value (for example an inserted id) — opaque at this layer. -/
abbrev Bson := Nat

/-- Server error code carried by write failures. -/
abbrev Code := Int

/-- GridFS error sub-kinds, as matched in src/error.rs: the code
distinguishes only `FileNotFound` from every other GridFS sub-kind. -/
inductive GridFsErrorKind where
  | fileNotFound
  | otherKind
deriving DecidableEq, Repr

/-- The engine's write-failure shapes (`mongodb::error::WriteFailure`):
a write-concern error, a plain write error (each carrying a server code),
or an unrecognized shape (the enum is non-exhaustive). -/
inductive WriteFailure where
  | writeConcernError (code : Code)
  | writeError (code : Code)
  | otherShape
deriving DecidableEq, Repr

/-- The engine's error kinds (`mongodb::error::ErrorKind`), restricted to the
payload the classifier in src/error.rs actually inspects.  The first nine
variants are the ones with a dedicated match arm; the remaining variants are
real `ErrorKind` members that fall through to the classifier's `_` arm. -/
inductive MongoErrorKind where
  | invalidArgument
  | authentication
  | bsonSerialization
  | bsonDeserialization
  | serverSelection
  | write (failure : WriteFailure)
  | bulkWrite
  | command
  | gridFs (kind : GridFsErrorKind)
  | connectionPoolCleared
  | dnsResolve
  | incompleteRead
  | internalError
  | invalidResponse
  | ioError
  | missingResumeToken
  | sessionsNotSupported
  | shuttingDown
  | transaction
deriving DecidableEq, Repr

/-- The caller-visible exception kinds created in src/error.rs (plus the base
class `PyMongoError`, which is the catch-all the spec calls `DatabaseError`,
and `PyValueError` used for invalid arguments). -/
inductive PyErrKind where
  | pyValueError
  | configurationError
  | bsonSerializationError
  | bsonDeserializationError
  | serverSelectionError
  | writeConcernError
  | duplicateKeyError
  | writeError
  | operationFailure
  | noFile
  | gridFSError
  | pyMongoError
deriving DecidableEq, Repr

/-- The error classifier: the `From<MongoError> for PyErr` impl of
src/error.rs lines 108–143, arm for arm. -/
def classify : MongoErrorKind → PyErrKind
  | .invalidArgument => .pyValueError
  | .authentication => .configurationError
  | .bsonSerialization => .bsonSerializationError
  | .bsonDeserialization => .bsonDeserializationError
  | .serverSelection => .serverSelectionError
  | .write failure =>
      match failure with
      | .writeConcernError _ => .writeConcernError
      | .writeError code =>
          if code = 11000 then .duplicateKeyError else .writeError
      | .otherShape => .writeError
  | .bulkWrite => .writeError
  | .command => .operationFailure
  | .gridFs kind =>
      match kind with
      | .fileNotFound => .noFile
      | .otherKind => .gridFSError
  | _ => .pyMongoError

/-- The engine error kinds that have no dedicated arm in src/error.rs and are
handled by the final `_ => PyMongoError::new_err(msg)` arm. -/
def fallsToCatchAll : MongoErrorKind → Bool
  | .invalidArgument => false
  | .authentication => false
  | .bsonSerialization => false
  | .bsonDeserialization => false
  | .serverSelection => false
  | .write _ => false
  | .bulkWrite => false
  | .command => false
  | .gridFs _ => false
  | _ => true

/-- Caller-visible error value (`PyErr` in pyo3 terms): a classified database
error, the bridge-level runtime error of src/runtime.rs, or the distinguished
end-of-iteration signal `PyStopAsyncIteration` raised by cursor `next`. -/
inductive PyErr where
  | mongo (kind : PyErrKind)
  | runtimeError (msg : String)
  | stopAsyncIteration
deriving DecidableEq, Repr

/-
Cursor model.  `mongodb::Cursor<RawDocumentBuf>` is modelled as the stream of
server responses still to be delivered: each response is either a document or
an engine error, and the cursor additionally remembers the document currently
under the iterator (for `deserialize_current`).  Exhaustion is the empty
response list.
-/

/-- The engine cursor: remaining server responses and the current document. -/
structure EngineCursor where
  responses : List (Except MongoErrorKind Doc)
  current : Option Doc
deriving Repr

/-- One step of `mongodb::Cursor::advance`: moves to the next response;
yields `true` with the document stored as current, `false` on exhaustion, or
the engine error. -/
def EngineCursor.advance : EngineCursor → EngineCursor × Except MongoErrorKind Bool
  | ⟨[], _⟩ => (⟨[], none⟩, .ok false)
  | ⟨.ok d :: rest, _⟩ => (⟨rest, some d⟩, .ok true)
  | ⟨.error e :: rest, cur⟩ => (⟨rest, cur⟩, .error e)

/-- `mongodb::Cursor::deserialize_current`: reads the current document (the
target type is `RawDocumentBuf`, so deserialization is the identity; calling
it with no current document is an invalid-response error). -/
def EngineCursor.deserializeCurrent (c : EngineCursor) : Except MongoErrorKind Doc :=
  match c.current with
  | some d => .ok d
  | none => .error .invalidResponse

/-- `mongodb::Cursor::try_next`, which is `advance` followed by
`deserialize_current` when a document is available. -/
def EngineCursor.tryNext (c : EngineCursor) : EngineCursor × Except MongoErrorKind (Option Doc) :=
  match c.advance with
  | (c', .error e) => (c', .error e)
  | (c', .ok false) => (c', .ok none)
  | (c', .ok true) =>
      match c'.deserializeCurrent with
      | .error e => (c', .error e)
      | .ok d => (c', .ok (some d))

namespace CoreCursor

/-- CoreCursor::next (src/cursor.rs lines 30–49): one `try_next`; a document
is returned, exhaustion raises `PyStopAsyncIteration`, and an engine error is
classified. -/
def next (c : EngineCursor) : EngineCursor × Except PyErr Doc :=
  match c.tryNext with
  | (c', .error e) => (c', .error (.mongo (classify e)))
  | (c', .ok (some d)) => (c', .ok d)
  | (c', .ok none) => (c', .error .stopAsyncIteration)

/-- The collect loop of CoreCursor::collect (src/cursor.rs lines 51–66),
written by recursion on the response stream; each iteration corresponds to
one `try_next` call of the `while let` loop. -/
def collectFrom : List (Except MongoErrorKind Doc) → Option Doc →
    EngineCursor × Except PyErr (List Doc)
  | [], _ => (⟨[], none⟩, .ok [])
  | .ok d :: rest, _ =>
      match collectFrom rest (some d) with
      | (c', .ok ds) => (c', .ok (d :: ds))
      | (c', .error e) => (c', .error e)
  | .error e :: rest, cur => (⟨rest, cur⟩, .error (.mongo (classify e)))

/-- CoreCursor::collect: drain the cursor, accumulating every document. -/
def collect (c : EngineCursor) : EngineCursor × Except PyErr (List Doc) :=
  collectFrom c.responses c.current

/-- CoreCursor::next_batch (src/cursor.rs lines 68–93): up to `batchSize`
iterations of `advance` + `deserialize_current`, stopping early when
`advance` reports exhaustion. -/
def next_batch (c : EngineCursor) : Nat → EngineCursor × Except PyErr (List Doc)
  | 0 => (c, .ok [])
  | n + 1 =>
      match c.advance with
      | (c', .error e) => (c', .error (.mongo (classify e)))
      | (c', .ok false) => (c', .ok [])
      | (c', .ok true) =>
          match c'.deserializeCurrent with
          | .error e => (c', .error (.mongo (classify e)))
          | .ok d =>
              match next_batch c' n with
              | (c'', .ok ds) => (c'', .ok (d :: ds))
              | (c'', .error k) => (c'', .error k)

/-- The outcomes of a sequence of `n` successive CoreCursor::next calls. -/
def nextTrace (c : EngineCursor) : Nat → List (Except PyErr Doc)
  | 0 => []
  | n + 1 => (next c).2 :: nextTrace (next c).1 n

end CoreCursor

/-
Session and transaction model.
-/

/-- Transaction state of an engine session (spec section 4.4). -/
inductive TransactionState where
  | noTransaction
  | active
  | committed
  | aborted
deriving DecidableEq, Repr

/-- The engine's `ClientSession`, reduced to the state this layer's claims
observe: the transaction state. -/
structure ClientSession where
  txnState : TransactionState
deriving DecidableEq, Repr

/-- Modelled from the spec: the collaborator client library's
`ClientSession::start_transaction` guard (the mongodb crate is not part of
this repository; src/session.rs only delegates to it).  Per the spec,
starting a transaction is legal only from `None` and otherwise rejected by
the engine with a transaction-state error. -/
def ClientSession.engineStartTransaction (s : ClientSession) :
    ClientSession × Except MongoErrorKind Unit :=
  match s.txnState with
  | .noTransaction => (⟨.active⟩, .ok ())
  | _ => (s, .error .transaction)

/-- Modelled from the spec: the collaborator client library's
`ClientSession::commit_transaction` guard.  Per the spec, commit is legal
only from `Active` and is otherwise rejected with a transaction-state
error. -/
def ClientSession.engineCommitTransaction (s : ClientSession) :
    ClientSession × Except MongoErrorKind Unit :=
  match s.txnState with
  | .active => (⟨.committed⟩, .ok ())
  | _ => (s, .error .transaction)

/-- Modelled from the spec: the collaborator client library's
`ClientSession::abort_transaction` guard, legal only from `Active`. -/
def ClientSession.engineAbortTransaction (s : ClientSession) :
    ClientSession × Except MongoErrorKind Unit :=
  match s.txnState with
  | .active => (⟨.aborted⟩, .ok ())
  | _ => (s, .error .transaction)

/-- Transaction options (src/options.rs `CoreTransactionOptions`); their
fields only tune engine behaviour and are opaque to the state machine. -/
structure CoreTransactionOptions

namespace CoreSession

/-- CoreSession::start_transaction (src/session.rs lines 28–48): lock the
session, delegate to the engine, map an engine rejection through the error
classifier. -/
def start_transaction (s : ClientSession) (_options : Option CoreTransactionOptions) :
    ClientSession × Except PyErr Unit :=
  match s.engineStartTransaction with
  | (s', .ok u) => (s', .ok u)
  | (s', .error e) => (s', .error (.mongo (classify e)))

/-- CoreSession::commit_transaction (src/session.rs lines 50–63). -/
def commit_transaction (s : ClientSession) : ClientSession × Except PyErr Unit :=
  match s.engineCommitTransaction with
  | (s', .ok u) => (s', .ok u)
  | (s', .error e) => (s', .error (.mongo (classify e)))

/-- CoreSession::abort_transaction (src/session.rs lines 65–79). -/
def abort_transaction (s : ClientSession) : ClientSession × Except PyErr Unit :=
  match s.engineAbortTransaction with
  | (s', .ok u) => (s', .ok u)
  | (s', .error e) => (s', .error (.mongo (classify e)))

end CoreSession

/-
Session cursor model.  `mongodb::SessionCursor<RawDocumentBuf>` must be
advanced with its backing session; driver-internal session bookkeeping during
an advance is not observable at this layer, so the session passes through.
-/

/-- The engine session cursor: the remaining server responses. -/
structure SessionEngineCursor where
  responses : List (Except MongoErrorKind Doc)
deriving Repr

/-- `mongodb::SessionCursor::next(&mut session)` followed by the code's
`.transpose()`: `Result<Option<Doc>>` threaded with the session. -/
def SessionEngineCursor.engineNext (c : SessionEngineCursor) (s : ClientSession) :
    SessionEngineCursor × ClientSession × Except MongoErrorKind (Option Doc) :=
  match c.responses with
  | [] => (⟨[]⟩, s, .ok none)
  | .ok d :: rest => (⟨rest⟩, s, .ok (some d))
  | .error e :: rest => (⟨rest⟩, s, .error e)

namespace CoreSessionCursor

/-- CoreSessionCursor::next (src/cursor.rs lines 113–135): lock the cursor
and the backing session, take one engine step; a document is returned,
exhaustion raises `PyStopAsyncIteration`, an engine error is classified. -/
def next (c : SessionEngineCursor) (s : ClientSession) :
    SessionEngineCursor × ClientSession × Except PyErr Doc :=
  match c.engineNext s with
  | (c', s', .error e) => (c', s', .error (.mongo (classify e)))
  | (c', s', .ok (some d)) => (c', s', .ok d)
  | (c', s', .ok none) => (c', s', .error .stopAsyncIteration)

/-- CoreSessionCursor::next_batch (src/cursor.rs lines 137–164): up to
`batchSize` engine steps under both locks, stopping early on exhaustion. -/
def next_batch (c : SessionEngineCursor) (s : ClientSession) :
    Nat → SessionEngineCursor × ClientSession × Except PyErr (List Doc)
  | 0 => (c, s, .ok [])
  | n + 1 =>
      match c.engineNext s with
      | (c', s', .error e) => (c', s', .error (.mongo (classify e)))
      | (c', s', .ok none) => (c', s', .ok [])
      | (c', s', .ok (some d)) =>
          match next_batch c' s' n with
          | (c'', s'', .ok ds) => (c'', s'', .ok (d :: ds))
          | (c'', s'', .error k) => (c'', s'', .error k)

/-- The collect loop of CoreSessionCursor::collect (src/cursor.rs lines
166–189), by recursion on the response stream; each iteration is one engine
step of the `while let` loop. -/
def collectFrom : List (Except MongoErrorKind Doc) → ClientSession →
    SessionEngineCursor × ClientSession × Except PyErr (List Doc)
  | [], s => (⟨[]⟩, s, .ok [])
  | .ok d :: rest, s =>
      match collectFrom rest s with
      | (c', s', .ok ds) => (c', s', .ok (d :: ds))
      | (c', s', .error e) => (c', s', .error e)
  | .error e :: rest, s => (⟨rest⟩, s, .error (.mongo (classify e)))

/-- CoreSessionCursor::collect: drain the cursor under both locks. -/
def collect (c : SessionEngineCursor) (s : ClientSession) :
    SessionEngineCursor × ClientSession × Except PyErr (List Doc) :=
  collectFrom c.responses s

/-- The outcomes of a sequence of `n` successive CoreSessionCursor::next
calls, threading the backing session. -/
def nextTrace (c : SessionEngineCursor) (s : ClientSession) :
    Nat → List (Except PyErr Doc)
  | 0 => []
  | n + 1 =>
      match next c s with
      | (c', s', r) => r :: nextTrace c' s' n

end CoreSessionCursor

/-
Cross-runtime bridge (src/runtime.rs).
-/

/-- The executor-side outcome of awaiting a spawned task's join handle: the
task's value, or a `tokio::task::JoinError` (the task panicked, or the
runtime is shutting down and cancelled it). -/
inductive JoinError where
  | panicked (msg : String)
  | cancelled
deriving DecidableEq, Repr

/-- The diagnostic string of a `JoinError` (its Display output; the exact
wording comes from the executor, only its existence matters here). -/
def JoinError.message : JoinError → String
  | .panicked msg => msg
  | .cancelled => "task was cancelled"

/-- The bridge `spawn` of src/runtime.rs lines 11–20: await the join handle
and turn a `JoinError` into a `PyRuntimeError` (the spec's
`InternalExecutionFailure` kind) carrying the error's Display string. -/
def spawn {α : Type} (outcome : Except JoinError α) : Except PyErr α :=
  match outcome with
  | .ok v => .ok v
  | .error e => .error (.runtimeError e.message)

/-
insert_many result conversion (src/result.rs and src/collection.rs).
-/

/-- The engine's `InsertManyResult`: its `inserted_ids` is a
`HashMap<usize, Bson>` from input-document index to inserted id; it is
modelled as its entry list in the hash map's (unspecified) iteration
order. -/
structure InsertManyResult where
  inserted_ids : List (Nat × Bson)
deriving DecidableEq, Repr

/-- The caller-visible insert-many result (src/result.rs lines 62–64). -/
structure CoreInsertManyResult where
  inserted_ids : List Bson
deriving DecidableEq, Repr

/-- The `From<InsertManyResult> for CoreInsertManyResult` conversion
(src/result.rs lines 68–74): `v.inserted_ids.values().cloned().collect()`,
the map's values in iteration order. -/
def coreInsertManyResultFrom (v : InsertManyResult) : CoreInsertManyResult :=
  ⟨v.inserted_ids.map Prod.snd⟩

namespace CoreCollection

/-- CoreCollection::insert_many (src/collection.rs lines 794–821): run the
engine insert, convert the result, classify an engine error. -/
def insert_many (engineResult : Except MongoErrorKind InsertManyResult) :
    Except PyErr CoreInsertManyResult :=
  match engineResult with
  | .ok r => .ok (coreInsertManyResultFrom r)
  | .error e => .error (.mongo (classify e))

/-- CoreCollection::insert_many_with_session (src/collection.rs lines
824–855): the same conversion under the session's lock; the session passes
through. -/
def insert_many_with_session (s : ClientSession)
    (engineResult : Except MongoErrorKind InsertManyResult) :
    ClientSession × Except PyErr CoreInsertManyResult :=
  match engineResult with
  | .ok r => (s, .ok (coreInsertManyResultFrom r))
  | .error e => (s, .error (.mongo (classify e)))

end CoreCollection

/-
Session-lock interleaving model (src/session.rs, src/cursor.rs,
src/collection.rs).  Every operation on a `CoreSession` — including every
advancement of a `CoreSessionCursor` — executes the pattern
`session.lock().await; <mutate the engine session>; <lock drops>`:
the `tokio::sync::Mutex` is held for the whole engine call.  The model below
is a small-step semantics for two such tasks interleaved over one shared
mutex; only the `acquire` step is gated by the lock, so mutual exclusion of
the engine-session mutations is a consequence of the lock discipline, not an
assumption. -/

/-- A primitive step of one task: take the session lock, mutate the engine
session while holding it, or release the lock. -/
inductive SessionAction (σ : Type) where
  | acquire
  | mutate (f : σ → σ)
  | release

/-- The lock discipline every session operation in the code follows: acquire
the session's mutex, perform the operation's engine-session mutations, then
release (the guard drops at the end of the `async move` block). -/
def withSessionLock {σ : Type} (ms : List (σ → σ)) : List (SessionAction σ) :=
  SessionAction.acquire :: (ms.map SessionAction.mutate ++ [SessionAction.release])

/-- A configuration of two tasks sharing one session: the lock's owner
(`none` when free), each task's remaining program, and the engine session
state. -/
structure SessionConf (σ : Type) where
  owner : Option Bool
  progA : List (SessionAction σ)
  progB : List (SessionAction σ)
  state : σ

/-- Whether task `t` can take its next step: a task with no program left
cannot step, `acquire` blocks while the lock is held, and every other step
is an instruction of the task's own code and always runs when scheduled. -/
def enabled {σ : Type} (c : SessionConf σ) (t : Bool) : Bool :=
  match (if t then c.progA else c.progB) with
  | [] => false
  | SessionAction.acquire :: _ => c.owner.isNone
  | _ :: _ => true

/-- Execute task `t`'s next step. -/
def doStep {σ : Type} (c : SessionConf σ) (t : Bool) : SessionConf σ :=
  if t then
    match c.progA with
    | [] => c
    | SessionAction.acquire :: rest => { c with owner := some true, progA := rest }
    | SessionAction.mutate f :: rest => { c with state := f c.state, progA := rest }
    | SessionAction.release :: rest => { c with owner := none, progA := rest }
  else
    match c.progB with
    | [] => c
    | SessionAction.acquire :: rest => { c with owner := some false, progB := rest }
    | SessionAction.mutate f :: rest => { c with state := f c.state, progB := rest }
    | SessionAction.release :: rest => { c with owner := none, progB := rest }

/-- Run a schedule: at each step the scheduler picks which task advances. -/
def runSched {σ : Type} (c : SessionConf σ) : List Bool → SessionConf σ
  | [] => c
  | t :: ts => runSched (doStep c t) ts

/-- A schedule is valid when every scheduled step is enabled at that point
(the executor never runs a task blocked on the mutex). -/
def validSched {σ : Type} (c : SessionConf σ) : List Bool → Bool
  | [] => true
  | t :: ts => enabled c t && validSched (doStep c t) ts

/-- Apply a list of session mutations in order (the serial semantics of one
operation). -/
def applyAll {σ : Type} (ms : List (σ → σ)) (s : σ) : σ :=
  ms.foldl (fun x f => f x) s

/-- The configurations reachable when two session operations contend for one
session lock: each task is either not started, inside its critical section
with a prefix of its mutations applied, or finished.  Because `acquire` is
the only gated step and each task acquires before any mutation, at most one
task is ever mid-section and the session state is always a serial
composition of operation prefixes. -/
inductive Reach {σ : Type} (msA msB : List (σ → σ)) (s0 : σ) :
    SessionConf σ → Prop where
  | init :
      Reach msA msB s0 ⟨none, withSessionLock msA, withSessionLock msB, s0⟩
  | aRun (done rest : List (σ → σ)) (h : msA = done ++ rest) :
      Reach msA msB s0
        ⟨some true, rest.map SessionAction.mutate ++ [SessionAction.release],
          withSessionLock msB, applyAll done s0⟩
  | bRun (done rest : List (σ → σ)) (h : msB = done ++ rest) :
      Reach msA msB s0
        ⟨some false, withSessionLock msA,
          rest.map SessionAction.mutate ++ [SessionAction.release],
          applyAll done s0⟩
  | aDone :
      Reach msA msB s0 ⟨none, [], withSessionLock msB, applyAll msA s0⟩
  | bDone :
      Reach msA msB s0 ⟨none, withSessionLock msA, [], applyAll msB s0⟩
  | aDoneBRun (done rest : List (σ → σ)) (h : msB = done ++ rest) :
      Reach msA msB s0
        ⟨some false, [],
          rest.map SessionAction.mutate ++ [SessionAction.release],
          applyAll done (applyAll msA s0)⟩
  | bDoneARun (done rest : List (σ → σ)) (h : msA = done ++ rest) :
      Reach msA msB s0
        ⟨some true,
          rest.map SessionAction.mutate ++ [SessionAction.release], [],
          applyAll done (applyAll msB s0)⟩
  | abDone :
      Reach msA msB s0 ⟨none, [], [], applyAll msB (applyAll msA s0)⟩
  | baDone :
      Reach msA msB s0 ⟨none, [], [], applyAll msA (applyAll msB s0)⟩

/-
Theorems.
-/

/-- Helper: applying one more mutation after a prefix. -/
theorem applyAll_snoc {σ : Type} (ms : List (σ → σ)) (f : σ → σ) (s : σ) :
    applyAll (ms ++ [f]) s = f (applyAll ms s) := by
  simp [applyAll, List.foldl_append]

/-- C1 counterexample: a write-concern failure carrying server code 11000 is
classified as `WriteConcernError`, not as `DuplicateKey`, so the claimed
"regardless of its outer write-failure shape" fails; likewise a write-concern
failure with a non-11000 code is not classified as the general `WriteError`
kind. -/
theorem c1_counterexample :
    classify (MongoErrorKind.write (WriteFailure.writeConcernError 11000)) =
      PyErrKind.writeConcernError ∧
    PyErrKind.writeConcernError ≠ PyErrKind.duplicateKeyError ∧
    classify (MongoErrorKind.write (WriteFailure.writeConcernError 42)) ≠
      PyErrKind.writeError := by
  decide

/-- C1 (amended): a plain write error with server code 11000 is classified
as `DuplicateKey` and with any other code as the general `WriteError` kind;
a write-concern error is classified as `WriteConcernError` regardless of its
code; an unrecognized write-failure shape is classified as `WriteError`. -/
theorem c1_write_failure_classification (code : Code) :
    classify (MongoErrorKind.write (WriteFailure.writeError code)) =
      (if code = 11000 then PyErrKind.duplicateKeyError else PyErrKind.writeError) ∧
    classify (MongoErrorKind.write (WriteFailure.writeConcernError code)) =
      PyErrKind.writeConcernError ∧
    classify (MongoErrorKind.write WriteFailure.otherShape) =
      PyErrKind.writeError :=
  ⟨rfl, rfl, rfl⟩

/-- C8: the classifier is a total deterministic function — every engine
error kind is mapped to exactly one caller-visible kind — and every engine
error kind without a dedicated match arm falls to the `PyMongoError` base
class, the catch-all the spec calls `DatabaseError`. -/
theorem c8_classifier_total_catch_all (e : MongoErrorKind) :
    (∃! k : PyErrKind, classify e = k) ∧
    (fallsToCatchAll e = true → classify e = PyErrKind.pyMongoError) := by
  refine ⟨⟨classify e, rfl, fun k hk => hk.symm⟩, fun h => ?_⟩
  cases e <;> first
    | rfl
    | exact absurd h (by decide)
    | simp [fallsToCatchAll] at h

/-- C8 witness: the classifier at the engine's io error kind, which has no
dedicated arm and lands on the catch-all. -/
theorem c8_classifier_total_catch_all_witness :
    fallsToCatchAll MongoErrorKind.ioError = true ∧
    classify MongoErrorKind.ioError = PyErrKind.pyMongoError :=
  ⟨by decide, (c8_classifier_total_catch_all MongoErrorKind.ioError).2 (by decide)⟩

/-- C9 counterexample: an engine bulk-write failure is classified as the
same `WriteError` kind as a general write error, so the caller cannot
distinguish it by kind — there is no distinct `BulkWriteFailure` kind. -/
theorem c9_counterexample :
    classify MongoErrorKind.bulkWrite = PyErrKind.writeError ∧
    classify MongoErrorKind.bulkWrite =
      classify (MongoErrorKind.write (WriteFailure.writeError 5)) := by
  decide

/-- C9 (amended): an engine-level bulk-write failure is classified as the
general `WriteError` kind. -/
theorem c9_bulk_write_classified_write_error :
    classify MongoErrorKind.bulkWrite = PyErrKind.writeError := by
  decide

/-- C4: `collect` on a cursor or session cursor whose result set is empty
returns an empty document sequence and not an error. -/
theorem c4_collect_empty (cur : Option Doc) (s : ClientSession) :
    CoreCursor.collect ⟨[], cur⟩ = (⟨[], none⟩, Except.ok []) ∧
    CoreSessionCursor.collect ⟨[]⟩ s = (⟨[]⟩, s, Except.ok []) :=
  ⟨rfl, rfl⟩

/-- C7: for every unit of work passed to the bridge, `spawn` either returns
the work's own result, or — when the executor loses the task to a panic or
shutdown — a `PyRuntimeError` (the spec's `InternalExecutionFailure` kind)
carrying the join error's diagnostic string; no call completes without one
of the two. -/
theorem c7_spawn_never_silent {α : Type} (outcome : Except JoinError α) :
    (∃ v, outcome = Except.ok v ∧ spawn outcome = Except.ok v) ∨
    (∃ e, outcome = Except.error e ∧
      spawn outcome = Except.error (PyErr.runtimeError (JoinError.message e))) := by
  cases outcome with
  | ok v => exact Or.inl ⟨v, rfl, rfl⟩
  | error e => exact Or.inr ⟨e, rfl, rfl⟩

/-- C6: committing on a session whose transaction state is not `Active`
(state None, Committed or Aborted — no prior `start_transaction`) yields the
engine's transaction-state rejection, classified and propagated as an error;
starting a transaction while one is already active likewise fails; neither
rejection is swallowed. -/
theorem c6_transaction_state_errors (s : ClientSession) :
    (s.txnState ≠ TransactionState.active →
      (CoreSession.commit_transaction s).2 =
        Except.error (PyErr.mongo (classify MongoErrorKind.transaction))) ∧
    (s.txnState = TransactionState.active →
      (CoreSession.start_transaction s none).2 =
        Except.error (PyErr.mongo (classify MongoErrorKind.transaction))) := by
  obtain ⟨st⟩ := s
  cases st <;>
    simp [CoreSession.commit_transaction, CoreSession.start_transaction,
      ClientSession.engineCommitTransaction, ClientSession.engineStartTransaction]

/-- C6 witness: committing with no transaction started errors, and starting
a second transaction while one is active errors. -/
theorem c6_transaction_state_errors_witness :
    (CoreSession.commit_transaction ⟨TransactionState.noTransaction⟩).2 =
      Except.error (PyErr.mongo (classify MongoErrorKind.transaction)) ∧
    (CoreSession.start_transaction ⟨TransactionState.active⟩ none).2 =
      Except.error (PyErr.mongo (classify MongoErrorKind.transaction)) :=
  ⟨(c6_transaction_state_errors ⟨TransactionState.noTransaction⟩).1 (by decide),
   (c6_transaction_state_errors ⟨TransactionState.active⟩).2 rfl⟩

/-- C10: a successful insert_many (with or without a session) returns the
converted result whose `inserted_ids` list is the map of the engine's
index-keyed inserted-id entries to their values: one identifier per entry
(same length, same multiset of values as the engine map, whatever iteration
order the hash map presents) — while the order itself is unspecified, since
two iteration orders of the same map can produce different lists. -/
theorem c10_insert_many_inserted_ids (entries order : List (Nat × Bson))
    (h : order.Perm entries) (s : ClientSession) :
    CoreCollection.insert_many (Except.ok ⟨order⟩) =
      Except.ok (coreInsertManyResultFrom ⟨order⟩) ∧
    CoreCollection.insert_many_with_session s (Except.ok ⟨order⟩) =
      (s, Except.ok (coreInsertManyResultFrom ⟨order⟩)) ∧
    (coreInsertManyResultFrom ⟨order⟩).inserted_ids.Perm
      (entries.map Prod.snd) ∧
    (coreInsertManyResultFrom ⟨order⟩).inserted_ids.length = entries.length ∧
    (∃ es o₁ o₂ : List (Nat × Bson), o₁.Perm es ∧ o₂.Perm es ∧
      (coreInsertManyResultFrom ⟨o₁⟩).inserted_ids ≠
        (coreInsertManyResultFrom ⟨o₂⟩).inserted_ids) := by
  refine ⟨rfl, rfl, h.map Prod.snd, ?_, ?_⟩
  · simp [coreInsertManyResultFrom, h.length_eq]
  · refine ⟨[(0, 10), (1, 20)], [(0, 10), (1, 20)], [(1, 20), (0, 10)],
      List.Perm.refl _, List.Perm.swap _ _ _, by decide⟩

/-- C10 witness: the theorem at a concrete two-entry map presented in
reversed iteration order. -/
theorem c10_insert_many_inserted_ids_witness :
    ([((1 : Nat), (20 : Bson)), (0, 10)] : List (Nat × Bson)).Perm
      [(0, 10), (1, 20)] ∧
    (coreInsertManyResultFrom ⟨[(1, 20), (0, 10)]⟩).inserted_ids.Perm
      (([((0 : Nat), (10 : Bson)), (1, 20)] : List (Nat × Bson)).map Prod.snd) ∧
    (coreInsertManyResultFrom ⟨[(1, 20), (0, 10)]⟩).inserted_ids.length = 2 :=
  ⟨by decide,
   (c10_insert_many_inserted_ids [(0, 10), (1, 20)] [(1, 20), (0, 10)]
      (by decide) ⟨TransactionState.noTransaction⟩).2.2.1,
   (c10_insert_many_inserted_ids [(0, 10), (1, 20)] [(1, 20), (0, 10)]
      (by decide) ⟨TransactionState.noTransaction⟩).2.2.2.1⟩

/-- Helper: once the response stream is empty, every further `next` call on a
CoreCursor raises the end-of-iteration signal again. -/
theorem coreCursor_nextTrace_empty (k : Nat) (cur : Option Doc) :
    CoreCursor.nextTrace ⟨[], cur⟩ k =
      List.replicate k (Except.error PyErr.stopAsyncIteration) := by
  induction k generalizing cur with
  | zero => rfl
  | succ k ih =>
      simp [CoreCursor.nextTrace, CoreCursor.next, EngineCursor.tryNext,
        EngineCursor.advance, List.replicate, ih]

/-- Helper: over a fault-free result set, `docs.length + k` calls of
CoreCursor::next yield each document once and then `k` exhaustion
signals. -/
theorem coreCursor_nextTrace_fixed (docs : List Doc) (k : Nat) (cur : Option Doc) :
    CoreCursor.nextTrace ⟨docs.map Except.ok, cur⟩ (docs.length + k) =
      docs.map Except.ok ++
        List.replicate k (Except.error PyErr.stopAsyncIteration) := by
  induction docs generalizing cur with
  | nil => simpa using coreCursor_nextTrace_empty k cur
  | cons d rest ih =>
      have hlen : (d :: rest).length + k = (rest.length + k) + 1 := by
        simp [List.length_cons]; omega
      rw [hlen]
      simp [CoreCursor.nextTrace, CoreCursor.next, EngineCursor.tryNext,
        EngineCursor.advance, EngineCursor.deserializeCurrent, ih]

/-- Helper: once the response stream is empty, every further `next` call on a
CoreSessionCursor raises the end-of-iteration signal again. -/
theorem coreSessionCursor_nextTrace_empty (k : Nat) (s : ClientSession) :
    CoreSessionCursor.nextTrace ⟨[]⟩ s k =
      List.replicate k (Except.error PyErr.stopAsyncIteration) := by
  induction k generalizing s with
  | zero => rfl
  | succ k ih =>
      simp [CoreSessionCursor.nextTrace, CoreSessionCursor.next,
        SessionEngineCursor.engineNext, List.replicate, ih]

/-- Helper: over a fault-free result set, `docs.length + k` calls of
CoreSessionCursor::next yield each document once and then `k` exhaustion
signals. -/
theorem coreSessionCursor_nextTrace_fixed (docs : List Doc) (k : Nat)
    (s : ClientSession) :
    CoreSessionCursor.nextTrace ⟨docs.map Except.ok⟩ s (docs.length + k) =
      docs.map Except.ok ++
        List.replicate k (Except.error PyErr.stopAsyncIteration) := by
  induction docs generalizing s with
  | nil => simpa using coreSessionCursor_nextTrace_empty k s
  | cons d rest ih =>
      have hlen : (d :: rest).length + k = (rest.length + k) + 1 := by
        simp [List.length_cons]; omega
      rw [hlen]
      simp [CoreSessionCursor.nextTrace, CoreSessionCursor.next,
        SessionEngineCursor.engineNext, ih]

/-- C2: over a fixed fault-free server result set of N documents, a sequence
of `next` calls on a Cursor (and on a SessionCursor) returns exactly the N
documents and then, for every further call, the distinguished
`PyStopAsyncIteration` end-of-sequence signal — idempotently, and that
signal is not a classified database error. -/
theorem c2_next_exact_then_exhausted (docs : List Doc) (k : Nat)
    (cur : Option Doc) (s : ClientSession) :
    CoreCursor.nextTrace ⟨docs.map Except.ok, cur⟩ (docs.length + k) =
      docs.map Except.ok ++
        List.replicate k (Except.error PyErr.stopAsyncIteration) ∧
    CoreSessionCursor.nextTrace ⟨docs.map Except.ok⟩ s (docs.length + k) =
      docs.map Except.ok ++
        List.replicate k (Except.error PyErr.stopAsyncIteration) ∧
    (∀ kind : PyErrKind, PyErr.stopAsyncIteration ≠ PyErr.mongo kind) :=
  ⟨coreCursor_nextTrace_fixed docs k cur,
   coreSessionCursor_nextTrace_fixed docs k s,
   fun _ h => PyErr.noConfusion h⟩

/-- Helper: over a fault-free result set, CoreCursor::next_batch returns the
first `n` remaining documents (all of them when fewer remain) and no
error. -/
theorem coreCursor_next_batch_fixed (n : Nat) (docs : List Doc)
    (cur : Option Doc) :
    (CoreCursor.next_batch ⟨docs.map Except.ok, cur⟩ n).2 =
      Except.ok (docs.take n) := by
  induction n generalizing docs cur with
  | zero => simp [CoreCursor.next_batch]
  | succ n ih =>
      cases docs with
      | nil => simp [CoreCursor.next_batch, EngineCursor.advance]
      | cons d rest =>
          have h := ih rest (some d)
          simp only [List.map_cons, CoreCursor.next_batch, EngineCursor.advance,
            EngineCursor.deserializeCurrent]
          rcases hnb : CoreCursor.next_batch ⟨List.map Except.ok rest, some d⟩ n
            with ⟨c2, r⟩
          rw [hnb] at h
          simp only at h
          rw [h]
          simp [List.take_cons]

/-- Helper: over a fault-free result set, CoreSessionCursor::next_batch
returns the first `n` remaining documents and no error. -/
theorem coreSessionCursor_next_batch_fixed (n : Nat) (docs : List Doc)
    (s : ClientSession) :
    (CoreSessionCursor.next_batch ⟨docs.map Except.ok⟩ s n).2.2 =
      Except.ok (docs.take n) := by
  induction n generalizing docs s with
  | zero => simp [CoreSessionCursor.next_batch]
  | succ n ih =>
      cases docs with
      | nil => simp [CoreSessionCursor.next_batch, SessionEngineCursor.engineNext]
      | cons d rest =>
          have h := ih rest s
          simp only [List.map_cons, CoreSessionCursor.next_batch,
            SessionEngineCursor.engineNext]
          rcases hnb : CoreSessionCursor.next_batch ⟨List.map Except.ok rest⟩ s n
            with ⟨c2, s2, r⟩
          rw [hnb] at h
          simp only at h
          rw [h]
          simp [List.take_cons]

/-- C3: `next_batch n` on a Cursor or SessionCursor with R fault-free
documents remaining returns a batch of exactly `min R n` documents — never
more than `n`, exactly R when R < n — and no error for the shortfall. -/
theorem c3_next_batch_min (docs : List Doc) (cur : Option Doc)
    (s : ClientSession) (n : Nat) :
    (CoreCursor.next_batch ⟨docs.map Except.ok, cur⟩ n).2 =
      Except.ok (docs.take n) ∧
    (CoreSessionCursor.next_batch ⟨docs.map Except.ok⟩ s n).2.2 =
      Except.ok (docs.take n) ∧
    (docs.take n).length = min docs.length n :=
  ⟨coreCursor_next_batch_fixed n docs cur,
   coreSessionCursor_next_batch_fixed n docs s,
   by simp [List.length_take, Nat.min_comm]⟩

/-- Helper: one enabled step preserves the reachable-configuration
invariant — in particular, while one task is inside its critical section the
other task's only possible step is `acquire`, which is not enabled. -/
theorem reach_step {σ : Type} {msA msB : List (σ → σ)} {s0 : σ}
    {c : SessionConf σ} (hr : Reach msA msB s0 c) (t : Bool)
    (he : enabled c t = true) : Reach msA msB s0 (doStep c t) := by
  cases hr with
  | init =>
      cases t with
      | false => exact Reach.bRun [] msB rfl
      | true => exact Reach.aRun [] msA rfl
  | aRun done rest h =>
      cases t with
      | false => simp [enabled, withSessionLock] at he
      | true =>
          cases rest with
          | nil =>
              have hd : done = msA := by simpa using h.symm
              subst hd
              exact Reach.aDone
          | cons f rest' =>
              show Reach msA msB s0
                ⟨some true,
                  rest'.map SessionAction.mutate ++ [SessionAction.release],
                  withSessionLock msB, f (applyAll done s0)⟩
              rw [← applyAll_snoc done f s0]
              exact Reach.aRun (done ++ [f]) rest' (by simp [h])
  | bRun done rest h =>
      cases t with
      | true => simp [enabled, withSessionLock] at he
      | false =>
          cases rest with
          | nil =>
              have hd : done = msB := by simpa using h.symm
              subst hd
              exact Reach.bDone
          | cons f rest' =>
              show Reach msA msB s0
                ⟨some false, withSessionLock msA,
                  rest'.map SessionAction.mutate ++ [SessionAction.release],
                  f (applyAll done s0)⟩
              rw [← applyAll_snoc done f s0]
              exact Reach.bRun (done ++ [f]) rest' (by simp [h])
  | aDone =>
      cases t with
      | true => simp [enabled] at he
      | false => exact Reach.aDoneBRun [] msB rfl
  | bDone =>
      cases t with
      | false => simp [enabled] at he
      | true => exact Reach.bDoneARun [] msA rfl
  | aDoneBRun done rest h =>
      cases t with
      | true => simp [enabled] at he
      | false =>
          cases rest with
          | nil =>
              have hd : done = msB := by simpa using h.symm
              subst hd
              exact Reach.abDone
          | cons f rest' =>
              show Reach msA msB s0
                ⟨some false, [],
                  rest'.map SessionAction.mutate ++ [SessionAction.release],
                  f (applyAll done (applyAll msA s0))⟩
              rw [← applyAll_snoc done f (applyAll msA s0)]
              exact Reach.aDoneBRun (done ++ [f]) rest' (by simp [h])
  | bDoneARun done rest h =>
      cases t with
      | false => simp [enabled] at he
      | true =>
          cases rest with
          | nil =>
              have hd : done = msA := by simpa using h.symm
              subst hd
              exact Reach.baDone
          | cons f rest' =>
              show Reach msA msB s0
                ⟨some true,
                  rest'.map SessionAction.mutate ++ [SessionAction.release], [],
                  f (applyAll done (applyAll msB s0))⟩
              rw [← applyAll_snoc done f (applyAll msB s0)]
              exact Reach.bDoneARun (done ++ [f]) rest' (by simp [h])
  | abDone => cases t <;> simp [enabled] at he
  | baDone => cases t <;> simp [enabled] at he

/-- Helper: a reachable configuration in which both tasks have finished
carries one of the two serial compositions as its session state. -/
theorem reach_complete {σ : Type} {msA msB : List (σ → σ)} {s0 : σ}
    {c : SessionConf σ} (hr : Reach msA msB s0 c)
    (hA : c.progA = []) (hB : c.progB = []) :
    c.state = applyAll msB (applyAll msA s0) ∨
    c.state = applyAll msA (applyAll msB s0) := by
  cases hr <;> first
    | exact Or.inl rfl
    | exact Or.inr rfl
    | simp [withSessionLock] at hA hB

/-- Helper: running any valid schedule keeps the configuration in the
reachable set. -/
theorem runSched_reach {σ : Type} {msA msB : List (σ → σ)} {s0 : σ} :
    ∀ (sched : List Bool) (c : SessionConf σ),
      Reach msA msB s0 c → validSched c sched = true →
      Reach msA msB s0 (runSched c sched)
  | [], _, hr, _ => hr
  | t :: ts, c, hr, hv => by
      rw [validSched, Bool.and_eq_true] at hv
      exact runSched_reach ts (doStep c t) (reach_step hr t hv.1) hv.2

/-- C5: two operations submitted concurrently against the same session
handle — each following the code's lock discipline of acquiring the
session's mutex for the whole operation, as every CoreSession method and
every CoreSessionCursor advancement does — never interleave their mutations
of the engine session: under every valid schedule that completes both
operations, the final session state is that of running the two operations in
some serial order. -/
theorem c5_session_mutual_exclusion {σ : Type} (msA msB : List (σ → σ))
    (s0 : σ) (sched : List Bool)
    (hv : validSched ⟨none, withSessionLock msA, withSessionLock msB, s0⟩
        sched = true)
    (hA : (runSched ⟨none, withSessionLock msA, withSessionLock msB, s0⟩
        sched).progA = [])
    (hB : (runSched ⟨none, withSessionLock msA, withSessionLock msB, s0⟩
        sched).progB = []) :
    (runSched ⟨none, withSessionLock msA, withSessionLock msB, s0⟩
        sched).state = applyAll msB (applyAll msA s0) ∨
    (runSched ⟨none, withSessionLock msA, withSessionLock msB, s0⟩
        sched).state = applyAll msA (applyAll msB s0) :=
  reach_complete (runSched_reach sched _ Reach.init hv) hA hB

/-- C5 witness: two one-mutation operations on a Nat-valued session, run to
completion under the schedule that lets task A finish first. -/
theorem c5_session_mutual_exclusion_witness :
    validSched ⟨none, withSessionLock [fun x => x + 1],
        withSessionLock [fun x => x * 2], (0 : Nat)⟩
        [true, true, true, false, false, false] = true ∧
    ((runSched ⟨none, withSessionLock [fun x => x + 1],
        withSessionLock [fun x => x * 2], (0 : Nat)⟩
        [true, true, true, false, false, false]).state =
      applyAll [fun x => x * 2] (applyAll [fun x => x + 1] 0) ∨
     (runSched ⟨none, withSessionLock [fun x => x + 1],
        withSessionLock [fun x => x * 2], (0 : Nat)⟩
        [true, true, true, false, false, false]).state =
      applyAll [fun x => x + 1] (applyAll [fun x => x * 2] 0)) :=
  ⟨rfl, c5_session_mutual_exclusion [fun x => x + 1] [fun x => x * 2] 0
      [true, true, true, false, false, false] rfl rfl rfl⟩

end Mongojet
